import Mathlib

/-!
Verification of the aqua-voice repository: a shallow embedding of the
live transcript-to-keystroke reconciler and the session controller from
the two entry points (aqua_voice.py, the live-typing variant, and
aqua_voice_app.py, the batch menu-bar variant), together with theorems
settling the behavioural claims about them.

Python truthiness tests on strings (`if text:`) are embedded as
comparisons with the empty string; the Python slice `s[:-n]` (used to
retract a pending interim from the tail of the typed buffer) is embedded
as `pyDropRight`; `' '.join(xs)` as `pyJoin`; `str.strip()` as `pyStrip`.
Side effects on the outside world (opening and closing the Deepgram
connection and the audio device, starting threads, clipboard writes,
keystroke injection) are recorded in an explicit `Effect` trace.
-/

namespace AquaVoiceModel

/-- A transcript event delivered by the Deepgram connection: a text
payload and the is_final flag read off the result object. -/
structure TranscriptEvent where
  text : String
  is_final : Bool
deriving DecidableEq, Repr

/-- Externally observable side effects of the program, in program order. -/
inductive Effect where
  | startQueueThread
  | openConnection
  | openAudio
  | startAudioThread
  | closeConnection
  | closeStream
  | terminateAudio
  | clipboard (text : String)
  | backspace
  | typeText (text : String)
deriving DecidableEq, Repr

/-- Embedding of the Python slice `s[:-n]` for `n ≥ 1` (and of its value
for every `n`): keep all but the last `n` characters. -/
def pyDropRight (s : String) (n : Nat) : String :=
  ⟨s.data.take (s.data.length - n)⟩

/-- Embedding of the Python expression `' '.join(xs)`. -/
def pyJoin (xs : List String) : String :=
  String.intercalate " " xs

/-- Embedding of the Python method `str.strip()`: drop whitespace from
both ends. -/
def pyStrip (s : String) : String :=
  ⟨((s.data.dropWhile Char.isWhitespace).reverse.dropWhile Char.isWhitespace).reverse⟩

/-- State of the `AquaVoice` class in aqua_voice.py (live-typing
variant).  Handle fields are booleans: `connSet` means `self.connection`
is not None, `connStarted` means `connection.start(options)` returned
True and the websocket is open; `streamSet` and `audioSet` track
`self.stream` and `self.audio`; `audioThread` tracks a running capture
thread. -/
structure AquaVoice where
  recording : Bool
  connSet : Bool
  connStarted : Bool
  streamSet : Bool
  audioSet : Bool
  audioThread : Bool
  final_text : List String
  last_interim : String
  all_typed : String
deriving DecidableEq, Repr

/-- The state built by `AquaVoice.__init__`. -/
def AquaVoice.init : AquaVoice :=
  { recording := false, connSet := false, connStarted := false,
    streamSet := false, audioSet := false, audioThread := false,
    final_text := [], last_interim := "", all_typed := "" }

/-- State of the `AquaVoiceApp` class in aqua_voice_app.py (batch
variant with a transcript queue).  `queue` holds the texts put on
`self.transcript_queue`; `queueRunning` is the `self.queue_running`
flag; `queueThreadRunning` records whether the queue-processor thread is
alive. -/
structure AquaVoiceApp where
  recording : Bool
  connSet : Bool
  connStarted : Bool
  streamSet : Bool
  audioSet : Bool
  audioThread : Bool
  queueRunning : Bool
  queueThreadRunning : Bool
  queue : List String
  final_text : List String
  all_typed : String
deriving DecidableEq, Repr

/-- The state built by `AquaVoiceApp.__init__`. -/
def AquaVoiceApp.init : AquaVoiceApp :=
  { recording := false, connSet := false, connStarted := false,
    streamSet := false, audioSet := false, audioThread := false,
    queueRunning := false, queueThreadRunning := false,
    queue := [], final_text := [], all_typed := "" }

/-- `AquaVoice.start_recording` (aqua_voice.py lines 70-117).  The two
failure points are abstracted by the parameters: `connOk` is the return
value of `self.connection.start(options)`, and `audioOk` is false when
`self.audio.open(...)` raises (with `pyaudio.PyAudio()` itself having
succeeded, so `self.audio` is already assigned).  On the guard
`if self.recording: return` nothing happens.  Note that the failure
branches only reset `self.recording`; they close nothing. -/
def start_recording (s : AquaVoice) (connOk audioOk : Bool) : AquaVoice × List Effect :=
  if s.recording then (s, [])
  else
    let s1 : AquaVoice :=
      { s with recording := true, final_text := [], last_interim := "",
               all_typed := "", connSet := true }
    if !connOk then ({ s1 with recording := false }, [])
    else
      let s2 : AquaVoice := { s1 with connStarted := true }
      if !audioOk then
        ({ s2 with recording := false, audioSet := true }, [Effect.openConnection])
      else
        ({ s2 with audioSet := true, streamSet := true, audioThread := true },
         [Effect.openConnection, Effect.openAudio, Effect.startAudioThread])

/-- The effects of the common teardown block of `stop_recording` and
`cancel_recording` (finish the connection if set, stop and close the
stream if set, terminate the audio handle if set); each block is wrapped
in try/except in the source and runs regardless of the previous one. -/
def closeHandlesEffects (s : AquaVoice) : List Effect :=
  (if s.connSet then [Effect.closeConnection] else []) ++
    (if s.streamSet then [Effect.closeStream] else []) ++
      (if s.audioSet then [Effect.terminateAudio] else [])

/-- The common teardown block itself: all handle fields are cleared
(`self.connection = None` and so on; fields already clear stay clear). -/
def closeHandles (s : AquaVoice) : AquaVoice × List Effect :=
  ({ s with connSet := false, connStarted := false, streamSet := false,
            audioSet := false },
   closeHandlesEffects s)

/-- `AquaVoice.stop_recording` (aqua_voice.py lines 119-157): guard on
`self.recording`, teardown, then copy `' '.join(final_text).strip()` to
the clipboard when that string is non-empty. -/
def stop_recording (s : AquaVoice) : AquaVoice × List Effect :=
  if !s.recording then (s, [])
  else
    let s1 : AquaVoice := { s with recording := false }
    let s2 := (closeHandles s1).1
    let fin := pyStrip (pyJoin s2.final_text)
    if fin = "" then (s2, closeHandlesEffects s1)
    else (s2, closeHandlesEffects s1 ++ [Effect.clipboard fin])

/-- `AquaVoice.cancel_recording` (aqua_voice.py lines 159-201): guard on
`self.recording`, teardown, then — when `self.all_typed` is non-empty —
copy it to the clipboard and press backspace once per character. -/
def cancel_recording (s : AquaVoice) : AquaVoice × List Effect :=
  if !s.recording then (s, [])
  else
    let s1 : AquaVoice := { s with recording := false }
    let s2 := (closeHandles s1).1
    if s2.all_typed = "" then (s2, closeHandlesEffects s1)
    else
      (s2, closeHandlesEffects s1 ++
             Effect.clipboard s2.all_typed ::
               List.replicate s2.all_typed.length Effect.backspace)

/-- `AquaVoice._on_transcript` (aqua_voice.py lines 213-258), after the
extraction of `text` and `is_final` from the callback payload: return if
not recording; return if `text` is empty; otherwise retract a pending
interim (one backspace per character, and drop that many characters from
the tail of `all_typed`) and then type the new text — with a trailing
space and an append to `final_text` when the event is final, or
recording it as the new pending interim otherwise. -/
def on_transcript (s : AquaVoice) (ev : TranscriptEvent) : AquaVoice × List Effect :=
  if !s.recording then (s, [])
  else if ev.text = "" then (s, [])
  else if s.last_interim = "" then
    if ev.is_final then
      ({ s with all_typed := s.all_typed ++ (ev.text ++ " "),
                final_text := s.final_text ++ [ev.text], last_interim := "" },
       [Effect.typeText (ev.text ++ " ")])
    else
      ({ s with all_typed := s.all_typed ++ ev.text, last_interim := ev.text },
       [Effect.typeText ev.text])
  else
    if ev.is_final then
      ({ s with all_typed := pyDropRight s.all_typed s.last_interim.length ++ (ev.text ++ " "),
                final_text := s.final_text ++ [ev.text], last_interim := "" },
       List.replicate s.last_interim.length Effect.backspace ++
         [Effect.typeText (ev.text ++ " ")])
    else
      ({ s with all_typed := pyDropRight s.all_typed s.last_interim.length ++ ev.text,
                last_interim := ev.text },
       List.replicate s.last_interim.length Effect.backspace ++
         [Effect.typeText ev.text])

/-- Sequential application of a list of transcript events, accumulating
the emitted effects (the Deepgram callback invokes `_on_transcript` once
per event, in arrival order). -/
def processEvents : AquaVoice → List TranscriptEvent → AquaVoice × List Effect
  | s, [] => (s, [])
  | s, ev :: evs =>
    ((processEvents (on_transcript s ev).1 evs).1,
     (on_transcript s ev).2 ++ (processEvents (on_transcript s ev).1 evs).2)

/-- The session state right after a fully successful `start_recording`
from the freshly constructed state: recording, with the reconciler
fields reset. -/
def startedLive : AquaVoice :=
  (start_recording AquaVoice.init true true).1

/-- The net content of the on-screen text buffer after one Text Injector
call: typing appends, a backspace removes the last character, the
remaining effects do not touch the document. -/
def applyEffect (buf : String) : Effect → String
  | Effect.typeText t => buf ++ t
  | Effect.backspace => pyDropRight buf 1
  | _ => buf

/-- The net content of the on-screen text buffer after a trace of
effects. -/
def applyEffects (buf : String) (es : List Effect) : String :=
  es.foldl applyEffect buf

/-- At most one pending interim fragment: either no interim is
outstanding, or the outstanding characters are exactly the tail
`last_interim` of the typed buffer. -/
def pendingOk (s : AquaVoice) : Prop :=
  s.last_interim = "" ∨ ∃ pre, s.all_typed = pre ++ s.last_interim

/-- `AquaVoiceApp.start_recording` (aqua_voice_app.py lines 285-346).
Before opening anything, the transcript queue is cleared and the
queue-processor thread is started.  `connOk` is the return value of
`self.connection.start(options)`; `audioOk` is false when
`self.audio.open(...)` raises after `pyaudio.PyAudio()` succeeded.  The
failure branches only reset `self.recording`: the queue-processor
thread keeps running (its loop condition is `self.queue_running or not
empty`, and `queue_running` stays True) and nothing is closed. -/
def app_start (s : AquaVoiceApp) (connOk audioOk : Bool) : AquaVoiceApp × List Effect :=
  if s.recording then (s, [])
  else
    let s1 : AquaVoiceApp :=
      { s with recording := true, final_text := [], all_typed := "",
               queue := [], queueRunning := true, queueThreadRunning := true,
               connSet := true }
    if !connOk then ({ s1 with recording := false }, [Effect.startQueueThread])
    else
      let s2 : AquaVoiceApp := { s1 with connStarted := true }
      if !audioOk then
        ({ s2 with recording := false, audioSet := true },
         [Effect.startQueueThread, Effect.openConnection])
      else
        ({ s2 with audioSet := true, streamSet := true, audioThread := true },
         [Effect.startQueueThread, Effect.openConnection, Effect.openAudio,
          Effect.startAudioThread])

/-- Effects of the teardown block shared by the app stop and cancel
paths (identical in shape to the live-variant one). -/
def appCloseHandlesEffects (s : AquaVoiceApp) : List Effect :=
  (if s.connSet then [Effect.closeConnection] else []) ++
    (if s.streamSet then [Effect.closeStream] else []) ++
      (if s.audioSet then [Effect.terminateAudio] else [])

/-- The app teardown block itself: handle fields cleared. -/
def appCloseHandles (s : AquaVoiceApp) : AquaVoiceApp × List Effect :=
  ({ s with connSet := false, connStarted := false, streamSet := false,
            audioSet := false },
   appCloseHandlesEffects s)

/-- One iteration of `AquaVoiceApp._process_transcript_queue` on a
dequeued text (aqua_voice_app.py lines 496-499): type the text with a
trailing space, extend `all_typed`, append to `final_text`. -/
def processQueueItem (s : AquaVoiceApp) (text : String) : AquaVoiceApp × List Effect :=
  ({ s with all_typed := s.all_typed ++ (text ++ " "),
            final_text := s.final_text ++ [text] },
   [Effect.typeText (text ++ " ")])

/-- Draining the remaining queued texts in order (the processor loop
keeps popping while the queue is non-empty even after `queue_running`
goes False). -/
def drainQueue : AquaVoiceApp → List String → AquaVoiceApp × List Effect
  | s, [] => (s, [])
  | s, t :: ts =>
    ((drainQueue (processQueueItem s t).1 ts).1,
     (processQueueItem s t).2 ++ (drainQueue (processQueueItem s t).1 ts).2)

/-- `AquaVoiceApp.stop_recording` (aqua_voice_app.py lines 348-391):
guard on `self.recording`, teardown, clear `queue_running` and join the
processor thread (which drains the remaining queued texts, typing
them), then copy `' '.join(final_text).strip()` to the clipboard when
that string is non-empty. -/
def app_stop (s : AquaVoiceApp) : AquaVoiceApp × List Effect :=
  if !s.recording then (s, [])
  else
    let s1 : AquaVoiceApp := { s with recording := false }
    let s2 := (appCloseHandles s1).1
    let s3 : AquaVoiceApp := { s2 with queueRunning := false }
    let s4 : AquaVoiceApp :=
      { (drainQueue s3 s3.queue).1 with queue := [], queueThreadRunning := false }
    let fin := pyStrip (pyJoin s4.final_text)
    if fin = "" then (s4, appCloseHandlesEffects s1 ++ (drainQueue s3 s3.queue).2)
    else
      (s4, appCloseHandlesEffects s1 ++ (drainQueue s3 s3.queue).2 ++
             [Effect.clipboard fin])

/-- `AquaVoiceApp.cancel_recording` (aqua_voice_app.py lines 393-445):
guard on `self.recording`, clear `queue_running` and empty the queue
first, teardown, join the processor thread, then — when `self.all_typed`
is non-empty — press backspace once per character.  No clipboard write
happens on this path. -/
def app_cancel (s : AquaVoiceApp) : AquaVoiceApp × List Effect :=
  if !s.recording then (s, [])
  else
    let s1 : AquaVoiceApp :=
      { s with recording := false, queueRunning := false, queue := [] }
    let s2 := (appCloseHandles s1).1
    let s3 : AquaVoiceApp := { s2 with queueThreadRunning := false }
    if s3.all_typed = "" then (s3, appCloseHandlesEffects s1)
    else
      (s3, appCloseHandlesEffects s1 ++
             List.replicate s3.all_typed.length Effect.backspace)

/-- `AquaVoiceApp._on_transcript` (aqua_voice_app.py lines 458-484),
after extraction of `text` from the callback payload: return if not
recording; return if `text` is empty; otherwise put the text on the
transcript queue.  No effect is emitted here. -/
def app_on_transcript (s : AquaVoiceApp) (text : String) : AquaVoiceApp :=
  if !s.recording then s
  else if text = "" then s
  else { s with queue := s.queue ++ [text] }

/-- The event sequence of the live-typing scenario: interim "how",
interim "how are", final "how are you". -/
def c1Events : List TranscriptEvent :=
  [⟨"how", false⟩, ⟨"how are", false⟩, ⟨"how are you", true⟩]

/-- A recording live-variant state with the interim "hi" pending. -/
def c2State : AquaVoice :=
  { startedLive with last_interim := "hi", all_typed := "hi" }

/-- A recording app-variant state with "testing" typed, all handles
open. -/
def c4AppState : AquaVoiceApp :=
  { AquaVoiceApp.init with
    recording := true, connSet := true,
    connStarted := true, streamSet := true, audioSet := true,
    audioThread := true, queueRunning := true, queueThreadRunning := true,
    all_typed := "testing" }

/-- The live-variant state after the final events "hello" and "world"
from a fresh session. -/
def c9State : AquaVoice :=
  (processEvents startedLive [⟨"hello", true⟩, ⟨"world", true⟩]).1

/-- A recording live-variant state with "testing" typed. -/
def c4LiveState : AquaVoice :=
  { startedLive with all_typed := "testing" }

/-- Does an effect write the clipboard? -/
def isClipboardEff : Effect → Bool
  | Effect.clipboard _ => true
  | _ => false

/-- Does an effect touch the on-screen document (typing or deleting)? -/
def isTypingEff : Effect → Bool
  | Effect.typeText _ => true
  | Effect.backspace => true
  | _ => false

theorem pyDropRight_zero (buf : String) : pyDropRight buf 0 = buf := by
  cases buf with
  | mk data => simp [pyDropRight]

theorem pyDropRight_succ (buf : String) (n : Nat) :
    pyDropRight (pyDropRight buf 1) n = pyDropRight buf (n + 1) := by
  simp only [pyDropRight, List.take_take, List.length_take]
  congr 2
  omega

theorem applyEffects_append (buf : String) (l1 l2 : List Effect) :
    applyEffects buf (l1 ++ l2) = applyEffects (applyEffects buf l1) l2 := by
  simp [applyEffects, List.foldl_append]

theorem applyEffects_replicate_backspace (n : Nat) (buf : String) :
    applyEffects buf (List.replicate n Effect.backspace) = pyDropRight buf n := by
  induction n generalizing buf with
  | zero => simp [applyEffects, pyDropRight_zero]
  | succ n ih =>
    rw [List.replicate_succ]
    have h : applyEffects buf (Effect.backspace :: List.replicate n Effect.backspace) =
        applyEffects (pyDropRight buf 1) (List.replicate n Effect.backspace) := rfl
    rw [h, ih, pyDropRight_succ]

theorem on_transcript_all_typed (s : AquaVoice) (ev : TranscriptEvent) :
    applyEffects s.all_typed (on_transcript s ev).2 = (on_transcript s ev).1.all_typed := by
  cases hr : s.recording
  · simp [on_transcript, hr, applyEffects]
  · by_cases ht : ev.text = ""
    · simp [on_transcript, hr, ht, applyEffects]
    · by_cases hp : s.last_interim = ""
      · cases hf : ev.is_final <;>
          simp [on_transcript, hr, ht, hp, hf, applyEffects, applyEffect]
      · cases hf : ev.is_final <;>
        · simp only [on_transcript, hr, ht, hp, hf, Bool.not_true, Bool.false_eq_true,
            if_false, if_neg, if_pos]
          rw [applyEffects_append, applyEffects_replicate_backspace]
          rfl

theorem processEvents_all_typed (s : AquaVoice) (evs : List TranscriptEvent) :
    applyEffects s.all_typed (processEvents s evs).2 = (processEvents s evs).1.all_typed := by
  induction evs generalizing s with
  | nil => rfl
  | cons ev evs ih =>
    simp only [processEvents]
    rw [applyEffects_append, on_transcript_all_typed]
    exact ih (on_transcript s ev).1

theorem on_transcript_pendingOk (s : AquaVoice) (ev : TranscriptEvent)
    (h : pendingOk s) : pendingOk (on_transcript s ev).1 := by
  cases hr : s.recording
  · simpa [on_transcript, hr] using h
  · by_cases ht : ev.text = ""
    · simpa [on_transcript, hr, ht] using h
    · by_cases hp : s.last_interim = ""
      · cases hf : ev.is_final
        · exact Or.inr ⟨s.all_typed, by simp [on_transcript, hr, ht, hp, hf]⟩
        · exact Or.inl (by simp [on_transcript, hr, ht, hp, hf])
      · cases hf : ev.is_final
        · exact Or.inr ⟨pyDropRight s.all_typed s.last_interim.length,
            by simp [on_transcript, hr, ht, hp, hf]⟩
        · exact Or.inl (by simp [on_transcript, hr, ht, hp, hf])

theorem processEvents_pendingOk (s : AquaVoice) (evs : List TranscriptEvent)
    (h : pendingOk s) : pendingOk (processEvents s evs).1 := by
  induction evs generalizing s with
  | nil => exact h
  | cons ev evs ih =>
    exact ih (on_transcript s ev).1 (on_transcript_pendingOk s ev h)

/-- Claim C1: from a freshly reset live session, the event sequence
interim "how", interim "how are", final "how are you" produces exactly
the edits insert "how", delete 3, insert "how are", delete 7, insert
"how are you ", and leaves the typed buffer equal to "how are you ". -/
theorem c1_live_typing_scenario :
    (processEvents startedLive c1Events).2 =
      [Effect.typeText "how"] ++ List.replicate 3 Effect.backspace ++
        [Effect.typeText "how are"] ++ List.replicate 7 Effect.backspace ++
          [Effect.typeText "how are you "] ∧
    (processEvents startedLive c1Events).1.all_typed = "how are you " := by
  decide

/-- Counterexample to claim C2: with the interim "hi" pending, an event
with empty text emits no delete and leaves the pending interim in place
— the emptiness test runs before the retraction, not after. -/
theorem c2_empty_event_keeps_interim :
    c2State.recording = true ∧ c2State.last_interim = "hi" ∧
    on_transcript c2State ⟨"", true⟩ = (c2State, []) ∧
    on_transcript c2State ⟨"", false⟩ = (c2State, []) := by
  decide

/-- Claim C2 amended: for an event with NON-empty text, a pending
interim is retracted (one backspace per pending character, the pending
length removed from the tail of the typed buffer, the pending field
cleared or overwritten) before the new text is inserted; an event with
empty text is instead a complete no-op that leaves the pending interim
in place. -/
theorem c2_retract_before_insert (s : AquaVoice) (ev : TranscriptEvent)
    (hr : s.recording = true) (ht : ev.text ≠ "") (hp : s.last_interim ≠ "") :
    (on_transcript s ev).2 =
      List.replicate s.last_interim.length Effect.backspace ++
        [Effect.typeText (if ev.is_final then ev.text ++ " " else ev.text)] ∧
    (on_transcript s ev).1.all_typed =
      pyDropRight s.all_typed s.last_interim.length ++
        (if ev.is_final then ev.text ++ " " else ev.text) ∧
    (on_transcript s ev).1.last_interim = (if ev.is_final then "" else ev.text) ∧
    (∀ ev2 : TranscriptEvent, ev2.text = "" → on_transcript s ev2 = (s, [])) := by
  refine ⟨?_, ?_, ?_, ?_⟩
  · cases hf : ev.is_final <;> simp [on_transcript, hr, ht, hp, hf]
  · cases hf : ev.is_final <;> simp [on_transcript, hr, ht, hp, hf]
  · cases hf : ev.is_final <;> simp [on_transcript, hr, ht, hp, hf]
  · intro ev2 h2
    simp [on_transcript, hr, h2]

theorem c2_retract_before_insert_witness :
    c2State.recording = true ∧ TranscriptEvent.text ⟨"how", false⟩ ≠ "" ∧
    c2State.last_interim ≠ "" ∧
    (on_transcript c2State ⟨"how", false⟩).2 =
      List.replicate 2 Effect.backspace ++ [Effect.typeText "how"] := by
  have h := c2_retract_before_insert c2State ⟨"how", false⟩ (by decide)
    (by decide) (by decide)
  exact ⟨by decide, by decide, by decide, by exact h.1⟩

/-- Claim C3 is a code bug in the source: a failed start does revert
`recording` to False, but it does not unwind the side effects already
established.  In the live variant, when the connection starts and the
audio device then fails to open, the started connection is left open
(nothing ever emits a close for it) and the allocated PyAudio handle is
left un-terminated.  In the app variant, when the connection fails to
start, the queue-processor thread started earlier is left running.
This theorem evaluates the embedded code at those failing inputs. -/
theorem c3_start_failure_leaves_leaks :
    ((start_recording AquaVoice.init true false).1.recording = false ∧
     (start_recording AquaVoice.init true false).1.connStarted = true ∧
     (start_recording AquaVoice.init true false).1.audioSet = true ∧
     (start_recording AquaVoice.init true false).2 = [Effect.openConnection] ∧
     Effect.closeConnection ∉ (start_recording AquaVoice.init true false).2) ∧
    ((app_start AquaVoiceApp.init false false).1.recording = false ∧
     (app_start AquaVoiceApp.init false false).1.queueRunning = true ∧
     (app_start AquaVoiceApp.init false false).1.queueThreadRunning = true ∧
     (app_start AquaVoiceApp.init false false).2 = [Effect.startQueueThread]) := by
  decide

theorem backspace_not_mem_closeHandlesEffects (s : AquaVoice) :
    Effect.backspace ∉ closeHandlesEffects s := by
  cases h1 : s.connSet <;> cases h2 : s.streamSet <;> cases h3 : s.audioSet <;>
    simp [closeHandlesEffects, h1, h2, h3]

theorem filter_closeHandlesEffects (s : AquaVoice) (p : Effect → Bool)
    (h1 : p Effect.closeConnection = false) (h2 : p Effect.closeStream = false)
    (h3 : p Effect.terminateAudio = false) :
    (closeHandlesEffects s).filter p = [] := by
  cases hc : s.connSet <;> cases hs : s.streamSet <;> cases ha : s.audioSet <;>
    simp [closeHandlesEffects, hc, hs, ha, List.filter, h1, h2, h3]

theorem filter_appCloseHandlesEffects (t : AquaVoiceApp) (p : Effect → Bool)
    (h1 : p Effect.closeConnection = false) (h2 : p Effect.closeStream = false)
    (h3 : p Effect.terminateAudio = false) :
    (appCloseHandlesEffects t).filter p = [] := by
  cases hc : t.connSet <;> cases hs : t.streamSet <;> cases ha : t.audioSet <;>
    simp [appCloseHandlesEffects, hc, hs, ha, List.filter, h1, h2, h3]

/-- Counterexample to claim C4: in the app variant, cancelling with
"testing" typed issues the 7 backspaces but writes nothing to the
clipboard, so the claimed clipboard copy does not happen on this code
path. -/
theorem c4_app_cancel_no_clipboard :
    c4AppState.recording = true ∧ c4AppState.all_typed = "testing" ∧
    (app_cancel c4AppState).2 =
      [Effect.closeConnection, Effect.closeStream, Effect.terminateAudio,
       Effect.backspace, Effect.backspace, Effect.backspace, Effect.backspace,
       Effect.backspace, Effect.backspace, Effect.backspace] ∧
    (app_cancel c4AppState).2.filter isClipboardEff = [] := by
  decide

/-- Claim C4 amended: in the live-typing variant, cancelling from the
Recording state with a non-empty typed buffer copies the full buffer to
the clipboard and only afterwards issues exactly one backspace per
buffered character (no backspace occurs among the teardown effects that
precede the clipboard write); in the menu-bar app variant, the same
cancel issues exactly one backspace per buffered character but performs
no clipboard write at all. -/
theorem c4_cancel_clipboard_then_backspaces (s : AquaVoice) (hr : s.recording = true)
    (hne : s.all_typed ≠ "") (t : AquaVoiceApp) (hr2 : t.recording = true)
    (hne2 : t.all_typed ≠ "") :
    (cancel_recording s).2 =
      closeHandlesEffects s ++
        Effect.clipboard s.all_typed ::
          List.replicate s.all_typed.length Effect.backspace ∧
    Effect.backspace ∉ closeHandlesEffects s ∧
    (app_cancel t).2 =
      appCloseHandlesEffects t ++ List.replicate t.all_typed.length Effect.backspace ∧
    (app_cancel t).2.filter isClipboardEff = [] := by
  refine ⟨?_, backspace_not_mem_closeHandlesEffects s, ?_, ?_⟩
  · simp [cancel_recording, closeHandles, closeHandlesEffects, hr, hne]
  · simp [app_cancel, appCloseHandles, appCloseHandlesEffects, hr2, hne2]
  · have h : (app_cancel t).2 =
        appCloseHandlesEffects t ++ List.replicate t.all_typed.length Effect.backspace := by
      simp [app_cancel, appCloseHandles, appCloseHandlesEffects, hr2, hne2]
    rw [h, List.filter_append, filter_appCloseHandlesEffects t isClipboardEff rfl rfl rfl]
    simp [List.filter_replicate, isClipboardEff]

theorem c4_cancel_clipboard_then_backspaces_witness :
    c4LiveState.recording = true ∧ c4LiveState.all_typed ≠ "" ∧
    c4AppState.recording = true ∧ c4AppState.all_typed ≠ "" ∧
    (cancel_recording c4LiveState).2 =
      closeHandlesEffects c4LiveState ++
        Effect.clipboard "testing" :: List.replicate 7 Effect.backspace := by
  have h := c4_cancel_clipboard_then_backspaces c4LiveState (by decide) (by decide)
    c4AppState (by decide) (by decide)
  exact ⟨by decide, by decide, by decide, by decide, h.1⟩

/-- Claim C5: after any event sequence applied from a freshly started
session, the typed buffer equals the net result of replaying every
emitted Text Injector effect on an empty document, and at most one
interim fragment is outstanding — none, or exactly the tail
`last_interim` of the typed buffer. -/
theorem c5_typed_buffer_invariant (evs : List TranscriptEvent) :
    applyEffects "" (processEvents startedLive evs).2 =
      (processEvents startedLive evs).1.all_typed ∧
    pendingOk (processEvents startedLive evs).1 := by
  constructor
  · exact processEvents_all_typed startedLive evs
  · exact processEvents_pendingOk startedLive evs (Or.inl rfl)

theorem start_recording_noop (s : AquaVoice) (c a : Bool) (h : s.recording = true) :
    start_recording s c a = (s, []) := by
  simp [start_recording, h]

/-- Claim C6: start while already recording is a no-op, stop and cancel
while idle are no-ops (in both variants), and two consecutive start
calls from idle open exactly one connection and one audio pipeline. -/
theorem c6_state_machine_guards (s : AquaVoice) (c a : Bool) (hs : s.recording = true)
    (t : AquaVoice) (ht : t.recording = false)
    (u : AquaVoiceApp) (hu : u.recording = true)
    (v : AquaVoiceApp) (hv : v.recording = false) :
    start_recording s c a = (s, []) ∧
    stop_recording t = (t, []) ∧
    cancel_recording t = (t, []) ∧
    app_start u c a = (u, []) ∧
    app_stop v = (v, []) ∧
    app_cancel v = (v, []) ∧
    (start_recording (start_recording t true true).1 true true).2 = [] ∧
    ((start_recording t true true).2 ++
        (start_recording (start_recording t true true).1 true true).2).count
      Effect.openConnection = 1 ∧
    ((start_recording t true true).2 ++
        (start_recording (start_recording t true true).1 true true).2).count
      Effect.openAudio = 1 := by
  have h1 : (start_recording t true true).2 =
      [Effect.openConnection, Effect.openAudio, Effect.startAudioThread] := by
    simp [start_recording, ht]
  have h2 : (start_recording t true true).1.recording = true := by
    simp [start_recording, ht]
  have h3 : (start_recording (start_recording t true true).1 true true).2 = [] := by
    rw [start_recording_noop _ true true h2]
  refine ⟨start_recording_noop s c a hs, by simp [stop_recording, ht],
    by simp [cancel_recording, ht], by simp [app_start, hu],
    by simp [app_stop, hv], by simp [app_cancel, hv], h3, ?_, ?_⟩
  · rw [h1, h3]
    decide
  · rw [h1, h3]
    decide

theorem c6_state_machine_guards_witness :
    startedLive.recording = true ∧ AquaVoice.init.recording = false ∧
    c4AppState.recording = true ∧ AquaVoiceApp.init.recording = false ∧
    start_recording startedLive true true = (startedLive, []) ∧
    ((start_recording AquaVoice.init true true).2 ++
        (start_recording (start_recording AquaVoice.init true true).1 true true).2).count
      Effect.openConnection = 1 := by
  have h := c6_state_machine_guards startedLive true true (by decide)
    AquaVoice.init (by decide) c4AppState (by decide) AquaVoiceApp.init (by decide)
  exact ⟨by decide, by decide, by decide, by decide, h.1, h.2.2.2.2.2.2.2.1⟩

/-- Claim C7: an event with empty text, final or interim, is a complete
no-op in both variants: no effect is emitted and the state is unchanged. -/
theorem c7_empty_text_noop (s : AquaVoice) (ev : TranscriptEvent)
    (t : AquaVoiceApp) (h : ev.text = "") :
    on_transcript s ev = (s, []) ∧ app_on_transcript t ev.text = t := by
  constructor
  · cases hr : s.recording <;> simp [on_transcript, hr, h]
  · cases hr : t.recording <;> simp [app_on_transcript, hr, h]

theorem c7_empty_text_noop_witness :
    TranscriptEvent.text ⟨"", true⟩ = "" ∧
    on_transcript startedLive ⟨"", true⟩ = (startedLive, []) ∧
    app_on_transcript c4AppState "" = c4AppState := by
  have h := c7_empty_text_noop startedLive ⟨"", true⟩ c4AppState rfl
  exact ⟨rfl, h.1, h.2⟩

theorem cancel_recording_noop (s : AquaVoice) (h : s.recording = false) :
    cancel_recording s = (s, []) := by
  simp [cancel_recording, h]

theorem cancel_recording_rec_false (s : AquaVoice) :
    (cancel_recording s).1.recording = false := by
  cases hr : s.recording
  · simp [cancel_recording, hr]
  · simp only [cancel_recording, closeHandles, hr, Bool.not_true, Bool.false_eq_true,
      if_false]
    split <;> rfl

theorem app_cancel_noop (t : AquaVoiceApp) (h : t.recording = false) :
    app_cancel t = (t, []) := by
  simp [app_cancel, h]

theorem app_cancel_rec_false (t : AquaVoiceApp) :
    (app_cancel t).1.recording = false := by
  cases hr : t.recording
  · simp [app_cancel, hr]
  · simp only [app_cancel, appCloseHandles, hr, Bool.not_true, Bool.false_eq_true,
      if_false]
    split <;> rfl

/-- Claim C8: cancel is idempotent in both variants — after one cancel
the state is no longer recording, so a second cancel returns the state
unchanged and emits no effect. -/
theorem c8_cancel_idempotent (s : AquaVoice) (t : AquaVoiceApp) :
    cancel_recording (cancel_recording s).1 = ((cancel_recording s).1, []) ∧
    app_cancel (app_cancel t).1 = ((app_cancel t).1, []) := by
  exact ⟨cancel_recording_noop _ (cancel_recording_rec_false s),
    app_cancel_noop _ (app_cancel_rec_false t)⟩

/-- Claim C9: for a session with exactly the final events "hello" then
"world" followed by stop, the typed buffer ends as "hello world " and
the stop path copies exactly "hello world" to the clipboard. -/
theorem c9_round_trip :
    c9State.all_typed = "hello world " ∧
    c9State.final_text = ["hello", "world"] ∧
    (stop_recording c9State).2 =
      [Effect.closeConnection, Effect.closeStream, Effect.terminateAudio,
       Effect.clipboard "hello world"] := by
  decide

/-- Claim C10: stop writes the clipboard exactly when the space-joined,
whitespace-stripped finalized segments are non-empty; with no finalized
segment at all, stop emits only the teardown effects — the typed buffer
(including any pending interim text on screen) is neither deleted nor
copied, and the reconciler text fields are untouched.  The app variant
behaves the same once its queue is empty. -/
theorem c10_stop_clipboard_guard (s : AquaVoice) (hr : s.recording = true)
    (t : AquaVoiceApp) (hr2 : t.recording = true) (hq : t.queue = []) :
    ((stop_recording s).2.filter isClipboardEff =
      (if pyStrip (pyJoin s.final_text) = "" then []
       else [Effect.clipboard (pyStrip (pyJoin s.final_text))])) ∧
    (s.final_text = [] →
      (stop_recording s).2 = closeHandlesEffects s ∧
      (stop_recording s).1.all_typed = s.all_typed ∧
      (stop_recording s).1.last_interim = s.last_interim ∧
      (stop_recording s).2.filter isTypingEff = []) ∧
    (t.final_text = [] →
      (app_stop t).2 = appCloseHandlesEffects t ∧
      (app_stop t).1.all_typed = t.all_typed ∧
      (app_stop t).2.filter isClipboardEff = []) := by
  refine ⟨?_, ?_, ?_⟩
  · by_cases hfin : pyStrip (pyJoin s.final_text) = ""
    · rw [if_pos hfin]
      have h : (stop_recording s).2 = closeHandlesEffects s := by
        simp [stop_recording, closeHandles, closeHandlesEffects, hr, hfin]
      rw [h]
      exact filter_closeHandlesEffects s isClipboardEff rfl rfl rfl
    · rw [if_neg hfin]
      have h : (stop_recording s).2 =
          closeHandlesEffects s ++ [Effect.clipboard (pyStrip (pyJoin s.final_text))] := by
        simp [stop_recording, closeHandles, closeHandlesEffects, hr, hfin]
      rw [h, List.filter_append, filter_closeHandlesEffects s isClipboardEff rfl rfl rfl]
      simp [isClipboardEff]
  · intro hf
    have hfin : pyStrip (pyJoin s.final_text) = "" := by
      rw [hf]
      decide
    have h : (stop_recording s).2 = closeHandlesEffects s := by
      simp [stop_recording, closeHandles, closeHandlesEffects, hr, hfin]
    refine ⟨h, by simp [stop_recording, closeHandles, hr, hfin], by
      simp [stop_recording, closeHandles, hr, hfin], ?_⟩
    rw [h]
    exact filter_closeHandlesEffects s isTypingEff rfl rfl rfl
  · intro hf
    have hfin : pyStrip (pyJoin t.final_text) = "" := by
      rw [hf]
      decide
    have h : (app_stop t).2 = appCloseHandlesEffects t := by
      simp [app_stop, appCloseHandles, appCloseHandlesEffects, hr2, hq, drainQueue, hfin]
    refine ⟨h, by simp [app_stop, appCloseHandles, hr2, hq, drainQueue, hfin], ?_⟩
    rw [h]
    exact filter_appCloseHandlesEffects t isClipboardEff rfl rfl rfl

theorem c10_stop_clipboard_guard_witness :
    c2State.recording = true ∧ c4AppState.recording = true ∧ c4AppState.queue = [] ∧
    (stop_recording c2State).2.filter isClipboardEff = [] ∧
    (stop_recording c2State).1.all_typed = c2State.all_typed := by
  have h := c10_stop_clipboard_guard c2State (by decide) c4AppState (by decide) (by decide)
  refine ⟨by decide, by decide, by decide, ?_, (h.2.1 (by decide)).2.1⟩
  rw [h.1]
  decide

end AquaVoiceModel
